import Mathlib

/-!
Verification of the risk-scoring engine of the Heart-Disease-Prediction
repository (`src/backend/ml_model.py`, class `HeartDiseaseModel`).

The Python code is shallowly embedded:
* numpy's global random generator is modelled as an explicit state
  (`RngState`) holding the seed and the draw position; the raw 64-bit
  stream (`npRaw`) is a concrete deterministic stand-in for the seeded
  Mersenne-Twister stream.  No theorem below depends on the particular
  values of the stream, only on its determinism from the seed and on the
  value ranges of `randint`/`uniform`, which the model reproduces.
* the scikit-learn classifier is opaque in the Python code (a pickled
  `RandomForestClassifier`); it is modelled by the structure `Classifier`
  carrying the library contract that `predict` returns one of the two
  training classes and `predict_proba` returns probabilities in `[0,1]`.
  The fitting procedure is a parameter (`SklearnFit`), so every theorem
  quantifies over all classifier behaviours satisfying the contract.
* Python floats are modelled as rationals.
* raised exceptions are modelled with `Except PyError`; the code defines
  no error classes of its own (no TrainingError, no ModelPersistenceError,
  no PredictionError), so `PyError` has only the builtin kinds the code
  can actually raise or re-raise.
-/

namespace HeartModel

/-- Errors the Python code can actually surface: `ValueError` from
scikit-learn (degenerate split, feature-count mismatch) and
`AttributeError` from calling `.predict` on `self.model = None`.
`ml_model.py` defines no custom exception classes. -/
inductive PyError
  | valueError
  | attributeError
deriving DecidableEq, Repr

/-- State of numpy's global random generator: the seed in effect and the
number of raw draws made since seeding. `np.random.seed 42` resets it. -/
structure RngState where
  seedVal : Nat
  pos : Nat
deriving DecidableEq, Repr

/-- Concrete deterministic stand-in for the seeded Mersenne-Twister raw
stream: draw number `i` after seeding with `seed`, a 64-bit value. -/
def npRaw (seed i : Nat) : Nat :=
  (seed * 6364136223846793005 + i * 1442695040888963407 + 1013904223) % 18446744073709551616

/-- Number of synthetic samples, `n_samples = 300` in `create_sample_data`. -/
def n_samples : Nat := 300

/-- Model of `np.random.randint(lo, hi, n_samples)` under seed 42: column
`c` of the feature matrix takes its draws at positions `c*300 + i`, one
integer in `[lo, hi)` per row `i`. -/
def rint (lo hi c i : Nat) : Int :=
  (lo : Int) + ((npRaw 42 (c * n_samples + i)) % (hi - lo) : Nat)

/-- Model of `np.random.uniform(0, 6, n_samples)` (the oldpeak column,
column index 9): a rational in `[0, 6]` per row. -/
def runiform (c i : Nat) : ℚ :=
  6 * (((npRaw 42 (c * n_samples + i)) % 9007199254740992 : Nat) : ℚ) / 9007199254740992

/-- One row of the feature matrix `X` built by
`HeartDiseaseModel.create_sample_data`: the 13 clinical features in the
order age, sex, cp, trestbps, chol, fbs, restecg, thalach, exang,
oldpeak, slope, ca, thal. -/
structure Sample where
  age : Int
  sex : Int
  cp : Int
  trestbps : Int
  chol : Int
  fbs : Int
  restecg : Int
  thalach : Int
  exang : Int
  oldpeak : ℚ
  slope : Int
  ca : Int
  thal : Int
deriving DecidableEq, Repr

/-- Row `i` of the generated feature matrix: each column is drawn from its
fixed range exactly as in `create_sample_data` (`np.column_stack` makes
row `i` the `i`-th entry of every column). -/
def sampleAt (i : Nat) : Sample :=
  { age := rint 29 80 0 i
    sex := rint 0 2 1 i
    cp := rint 0 4 2 i
    trestbps := rint 90 200 3 i
    chol := rint 120 400 4 i
    fbs := rint 0 2 5 i
    restecg := rint 0 3 6 i
    thalach := rint 70 220 7 i
    exang := rint 0 2 8 i
    oldpeak := runiform 9 i
    slope := rint 0 3 10 i
    ca := rint 0 4 11 i
    thal := rint 0 4 12 i }

/-- The risk score of `create_sample_data`: starting from 0, one point for
each of `age > 55`, `cp > 1`, `trestbps > 140`, `chol > 240`,
`exang == 1`, `oldpeak > 2`. -/
def riskScore (x : Sample) : Nat :=
  (if x.age > 55 then 1 else 0) +
  (if x.cp > 1 then 1 else 0) +
  (if x.trestbps > 140 then 1 else 0) +
  (if x.chol > 240 then 1 else 0) +
  (if x.exang = 1 then 1 else 0) +
  (if x.oldpeak > 2 then 1 else 0)

/-- The label rule of `create_sample_data`: `y[i] = 1 if risk_score >= 3
else 0`. -/
def labelOf (x : Sample) : Nat :=
  if riskScore x ≥ 3 then 1 else 0

/-- The feature matrix `X` produced by `create_sample_data` (under its
fixed internal seed 42). -/
def sampleX : List Sample := (List.range n_samples).map sampleAt

/-- The label vector `y` produced by `create_sample_data`. -/
def sampleY : List Nat := sampleX.map labelOf

/-- Embedding of `HeartDiseaseModel.create_sample_data`: it first executes
`np.random.seed(42)`, so its output ignores the incoming generator state;
it leaves the generator at the fixed post-draw position (13 columns of
300 draws each). -/
def create_sample_data (_g : RngState) : (List Sample × List Nat) × RngState :=
  ((sampleX, sampleY), ⟨42, 13 * n_samples⟩)

/-- Placeholder sample used only as the default of `List.getD`. -/
def dummySample : Sample :=
  { age := 0, sex := 0, cp := 0, trestbps := 0, chol := 0, fbs := 0,
    restecg := 0, thalach := 0, exang := 0, oldpeak := 0, slope := 0,
    ca := 0, thal := 0 }

/-- Opaque fitted classifier (the pickled `RandomForestClassifier`),
carrying the scikit-learn contract: `predict` returns one of the two
training classes and the positive-class entry of `predict_proba` lies in
`[0,1]`. -/
structure Classifier where
  predictOne : List ℚ → Nat
  probaOne : List ℚ → ℚ × ℚ
  pred_binary : ∀ v, predictOne v = 0 ∨ predictOne v = 1
  proba_range : ∀ v, 0 ≤ (probaOne v).2 ∧ (probaOne v).2 ≤ 1

/-- The fitting procedure of `RandomForestClassifier(n_estimators=100,
random_state=42, max_depth=10).fit`: opaque to the code, so it is a
parameter of every theorem; it may map a training set to any classifier
satisfying the contract (scikit-learn fits succeed on one-class data). -/
structure SklearnFit where
  fit : List (Sample × Nat) → Classifier

/-- The 13-entry feature vector of a sample, in the column order of
`create_sample_data`. -/
def featuresOf (x : Sample) : List ℚ :=
  [(x.age : ℚ), (x.sex : ℚ), (x.cp : ℚ), (x.trestbps : ℚ), (x.chol : ℚ),
   (x.fbs : ℚ), (x.restecg : ℚ), (x.thalach : ℚ), (x.exang : ℚ),
   x.oldpeak, (x.slope : ℚ), (x.ca : ℚ), (x.thal : ℚ)]

/-- Deterministic stand-in for the seed-42 permutation that
`sklearn.model_selection.train_test_split(..., random_state=42)` applies
before splitting; the theorems depend only on it being a pure,
length-preserving function of its input. -/
def shuffle42 {α : Type} (xs : List α) : List α :=
  xs.rotate (npRaw 42 0 % xs.length)

/-- Embedding of `train_test_split(X, y, test_size=0.2, random_state=42)`:
the holdout gets `ceil(n/5)` rows of the permuted data, the training side
the rest; scikit-learn raises `ValueError` when either side would be
empty. Returns `(train, test)`. -/
def train_test_split {α : Type} (ds : List α) : Except PyError (List α × List α) :=
  if ds.length - (ds.length + 4) / 5 = 0 ∨ (ds.length + 4) / 5 = 0 then
    Except.error PyError.valueError
  else
    Except.ok ((shuffle42 ds).drop ((ds.length + 4) / 5),
               (shuffle42 ds).take ((ds.length + 4) / 5))

/-- Number of holdout samples the classifier gets right:
`accuracy_score(y_test, y_pred)` counts agreements of
`self.model.predict(X_test)` with `y_test`. -/
def correctCount (m : Classifier) (te : List (Sample × Nat)) : Nat :=
  (te.filter (fun p => m.predictOne (featuresOf p.1) == p.2)).length

/-- The dataset-processing body of `train_model` (lines 60-66 of
`ml_model.py`) applied to a feature matrix `X` and label vector `y`:
split 80/20, fit, score the holdout, yielding the classifier and
`accuracy_score * 100`. -/
def train_on (sk : SklearnFit) (X : List Sample) (y : List Nat) :
    Except PyError (Classifier × ℚ) :=
  match train_test_split (X.zip y) with
  | Except.error e => Except.error e
  | Except.ok (tr, te) =>
      let m := sk.fit tr
      Except.ok (m, (correctCount m te : ℚ) / (te.length : ℚ) * 100)

/-- Contents of the file at `self.model_path` (`heart_model.pkl`): absent,
present but not unpicklable, or a stored pickle of the classifier — and of
the classifier only, the accuracy is not saved. -/
inductive FileState
  | absent
  | corrupt
  | stored (m : Classifier)

/-- The mutable attributes of the `HeartDiseaseModel` instance together
with the persisted artifact it owns: `self.model` (`None` initially),
`self.accuracy` (`0.0` initially) and the file at `self.model_path`. -/
structure ModelState where
  model : Option Classifier
  accuracy : ℚ
  fs : FileState

/-- Embedding of `HeartDiseaseModel.train_model`: generate the synthetic
data (`create_sample_data`, which reseeds, so the incoming state of the
instance is irrelevant), split/fit/score, set `self.model` and
`self.accuracy`, and pickle only the classifier to `self.model_path`; a
failure inside is logged and re-raised. -/
def train_model (sk : SklearnFit) (_st : ModelState) : Except PyError ModelState :=
  match train_on sk sampleX sampleY with
  | Except.error e => Except.error e
  | Except.ok (m, a) =>
      Except.ok { model := some m, accuracy := a, fs := FileState.stored m }

/-- Embedding of `HeartDiseaseModel.load_model`: if the artifact file
exists, unpickle it into `self.model`; otherwise train a new model. Any
exception (an undecodable artifact, or a training failure) is caught,
logged and turned into the return value `False`; the state changes the
`try` block made before the exception are kept. -/
def load_model (sk : SklearnFit) (st : ModelState) : Bool × ModelState :=
  match st.fs with
  | FileState.stored m => (true, { st with model := some m })
  | FileState.corrupt => (false, st)
  | FileState.absent =>
      match train_model sk st with
      | Except.ok st2 => (true, st2)
      | Except.error _ => (false, st)

/-- The first statement of `predict`: `if self.model is None:
self.load_model()` (the boolean result of `load_model` is ignored). -/
def ensure_model (sk : SklearnFit) (st : ModelState) : ModelState :=
  if st.model.isNone then (load_model sk st).2 else st

/-- The dictionary `predict` returns: keys `prediction`, `probability`
(the class-1 column of `predict_proba`) and `accuracy`. -/
structure PredResult where
  prediction : Nat
  probability : ℚ
  accuracy : ℚ

/-- Embedding of `HeartDiseaseModel.predict`: lazily ensure a model, then
run inference. Calling `.predict` on `self.model = None` raises
`AttributeError`; scikit-learn raises `ValueError` when the reshaped
feature row does not have the 13 columns the model was fitted on; the
`accuracy` key reports `self.accuracy if self.accuracy > 0 else 85.0`.
Exceptions are logged and re-raised. -/
def predict (sk : SklearnFit) (st : ModelState) (features : List ℚ) :
    Except PyError (PredResult × ModelState) :=
  match (ensure_model sk st).model with
  | none => Except.error PyError.attributeError
  | some m =>
      if features.length = 13 then
        Except.ok
          ({ prediction := m.predictOne features
             probability := (m.probaOne features).2
             accuracy := if (ensure_model sk st).accuracy > 0
                         then (ensure_model sk st).accuracy else 85 },
           ensure_model sk st)
      else Except.error PyError.valueError

/-- State invariant: the recorded accuracy is a percentage. It holds of
the fresh instance (`0.0`) and is preserved by every operation. -/
def ModelState.inv (st : ModelState) : Prop :=
  0 ≤ st.accuracy ∧ st.accuracy ≤ 100

theorem getD_range_map {α : Type} (f : Nat → α) (d : α) {i n : Nat}
    (h : i < n) : ((List.range n).map f).getD i d = f i := by
  have hl : i < ((List.range n).map f).length := by simpa using h
  rw [List.getD_eq_getElem _ _ hl]
  simp

theorem label_iff (x : Sample) :
    (labelOf x = 1 ↔ 3 ≤ riskScore x) ∧ (¬ 3 ≤ riskScore x → labelOf x = 0) := by
  unfold labelOf
  by_cases hr : riskScore x ≥ 3 <;> simp [hr]

/-- C1: every generated sample is labeled 1 exactly when at least 3 of the
six risk predicates hold of its feature vector, and 0 otherwise. -/
theorem c1_label_iff_risk (g : RngState) (i : Nat) (h : i < n_samples) :
    (((create_sample_data g).1.2).getD i 0 = 1 ↔
      3 ≤ riskScore (((create_sample_data g).1.1).getD i dummySample)) ∧
    (¬ 3 ≤ riskScore (((create_sample_data g).1.1).getD i dummySample) →
      ((create_sample_data g).1.2).getD i 0 = 0) := by
  have hx : ((create_sample_data g).1.1).getD i dummySample = sampleAt i :=
    getD_range_map sampleAt dummySample h
  have hy : ((create_sample_data g).1.2).getD i 0 = labelOf (sampleAt i) := by
    show (sampleY).getD i 0 = labelOf (sampleAt i)
    have hs : sampleY = (List.range n_samples).map (fun j => labelOf (sampleAt j)) := by
      rw [sampleY, sampleX, List.map_map]
      rfl
    rw [hs]
    exact getD_range_map _ 0 h
  rw [hx, hy]
  exact label_iff (sampleAt i)

/-- Witness for C1 at the first generated sample. -/
theorem c1_label_iff_risk_witness :
    0 < n_samples ∧
    ((((create_sample_data ⟨0, 0⟩).1.2).getD 0 0 = 1 ↔
      3 ≤ riskScore (((create_sample_data ⟨0, 0⟩).1.1).getD 0 dummySample)) ∧
    (¬ 3 ≤ riskScore (((create_sample_data ⟨0, 0⟩).1.1).getD 0 dummySample) →
      ((create_sample_data ⟨0, 0⟩).1.2).getD 0 0 = 0)) :=
  ⟨by decide, c1_label_iff_risk ⟨0, 0⟩ 0 (by decide)⟩

theorem sampleX_length : sampleX.length = 300 := by
  rw [sampleX, List.length_map, List.length_range]
  rfl

theorem sampleY_length : sampleY.length = 300 := by
  rw [sampleY, List.length_map]
  exact sampleX_length

theorem shuffle42_length {α : Type} (xs : List α) :
    (shuffle42 xs).length = xs.length := by
  rw [shuffle42]
  exact List.length_rotate xs _

theorem train_test_split_ok {α : Type} (ds : List α) (h : 2 ≤ ds.length) :
    train_test_split ds =
      Except.ok ((shuffle42 ds).drop ((ds.length + 4) / 5),
                 (shuffle42 ds).take ((ds.length + 4) / 5)) := by
  unfold train_test_split
  rw [if_neg]
  omega

theorem train_test_split_err {α : Type} (ds : List α) (h : ds.length < 2) :
    train_test_split ds = Except.error PyError.valueError := by
  unfold train_test_split
  rw [if_pos]
  omega

theorem train_test_split_te_len {α : Type} {ds tr te : List α}
    (h : train_test_split ds = Except.ok (tr, te)) :
    te.length = (ds.length + 4) / 5 ∧ 0 < te.length := by
  unfold train_test_split at h
  by_cases hc : ds.length - (ds.length + 4) / 5 = 0 ∨ (ds.length + 4) / 5 = 0
  · rw [if_pos hc] at h
    exact absurd h (by intro hx; cases hx)
  · rw [if_neg hc] at h
    injection h with h1
    have hte : te = (shuffle42 ds).take ((ds.length + 4) / 5) :=
      (congrArg Prod.snd h1).symm
    rw [hte, List.length_take, shuffle42_length]
    omega

theorem train_on_sample_ok (sk : SklearnFit) :
    train_on sk sampleX sampleY =
      Except.ok (sk.fit ((shuffle42 (sampleX.zip sampleY)).drop 60),
        ((correctCount (sk.fit ((shuffle42 (sampleX.zip sampleY)).drop 60))
            ((shuffle42 (sampleX.zip sampleY)).take 60) : ℚ) /
          ((((shuffle42 (sampleX.zip sampleY)).take 60)).length : ℚ) * 100)) := by
  have hz : (sampleX.zip sampleY).length = 300 := by
    rw [List.length_zip sampleX sampleY, sampleX_length, sampleY_length]
    simp
  have h2 : 2 ≤ (sampleX.zip sampleY).length := by omega
  rw [train_on, train_test_split_ok _ h2, hz]

theorem train_model_spec (sk : SklearnFit) (st : ModelState) :
    ∃ m a, train_on sk sampleX sampleY = Except.ok (m, a) ∧
      train_model sk st =
        Except.ok { model := some m, accuracy := a, fs := FileState.stored m } := by
  refine ⟨_, _, train_on_sample_ok sk, ?_⟩
  unfold train_model
  rw [train_on_sample_ok sk]

theorem train_on_acc_bounds (sk : SklearnFit) (X : List Sample) (y : List Nat)
    {m : Classifier} {a : ℚ} (h : train_on sk X y = Except.ok (m, a)) :
    0 ≤ a ∧ a ≤ 100 := by
  unfold train_on at h
  cases hsp : train_test_split (X.zip y) with
  | error e =>
      rw [hsp] at h
      exact absurd h (by intro hx; cases hx)
  | ok p =>
      obtain ⟨tr, te⟩ := p
      rw [hsp] at h
      injection h with h1
      have ha : a = (correctCount (sk.fit tr) te : ℚ) / (te.length : ℚ) * 100 :=
        (congrArg Prod.snd h1).symm
      have hcc : correctCount (sk.fit tr) te ≤ te.length :=
        List.length_filter_le _ te
      have hpos : 0 < te.length := (train_test_split_te_len hsp).2
      have hposq : (0 : ℚ) < (te.length : ℚ) := by exact_mod_cast hpos
      have hdiv : (correctCount (sk.fit tr) te : ℚ) / (te.length : ℚ) ≤ 1 := by
        rw [div_le_one hposq]
        exact_mod_cast hcc
      have hdiv0 : 0 ≤ (correctCount (sk.fit tr) te : ℚ) / (te.length : ℚ) :=
        div_nonneg (Nat.cast_nonneg _) (Nat.cast_nonneg _)
      constructor
      · rw [ha]
        positivity
      · rw [ha]
        nlinarith

/-- C8: the generator is deterministic — because it reseeds with 42, its
output is independent of the incoming generator state, so repeated
invocations (in particular an immediate second invocation from the
post-call state) yield identical ordered sequences of 300 samples and
labels. -/
theorem c8_generator_deterministic (g gPrime : RngState) :
    (create_sample_data g).1 = (create_sample_data gPrime).1 ∧
    (create_sample_data g).1 = (create_sample_data (create_sample_data g).2).1 ∧
    ((create_sample_data g).1.1).length = 300 ∧
    ((create_sample_data g).1.2).length = 300 := by
  refine ⟨rfl, rfl, ?_, ?_⟩
  · show sampleX.length = 300
    rw [sampleX, List.length_map, List.length_range]
    rfl
  · show sampleY.length = 300
    rw [sampleY, sampleX, List.length_map, List.length_map, List.length_range]
    rfl

/-- A concrete classifier satisfying the scikit-learn contract, used to
instantiate witnesses: it predicts class 0 with certainty. -/
def constClf : Classifier where
  predictOne := fun _ => 0
  probaOne := fun _ => (1, 0)
  pred_binary := fun _ => Or.inl rfl
  proba_range := fun _ => ⟨le_refl 0, by norm_num⟩

/-- A concrete fitting procedure used to instantiate witnesses. -/
def sk0 : SklearnFit := ⟨fun _ => constClf⟩

/-- The fresh instance before any call, with no artifact on disk:
`self.model = None`, `self.accuracy = 0.0`, no `heart_model.pkl`. -/
def coldState : ModelState :=
  { model := none, accuracy := 0, fs := FileState.absent }

/-- A fresh instance facing a present-but-undecodable artifact. -/
def corruptState : ModelState :=
  { model := none, accuracy := 0, fs := FileState.corrupt }

/-- An instance with a loaded model and a recorded accuracy of 50. -/
def warmState : ModelState :=
  { model := some constClf, accuracy := 50, fs := FileState.absent }

/-- The reference input vector of the spec,
`[63,1,3,145,233,1,0,150,0,2.3,0,0,1]`. -/
def f13 : List ℚ := [63, 1, 3, 145, 233, 1, 0, 150, 0, 23/10, 0, 0, 1]

theorem load_model_inv (sk : SklearnFit) (st : ModelState) (h : st.inv) :
    ((load_model sk st).2).inv := by
  unfold load_model
  cases hfs : st.fs with
  | stored m => exact h
  | corrupt => exact h
  | absent =>
      obtain ⟨m, a, hon, htm⟩ := train_model_spec sk st
      rw [htm]
      exact train_on_acc_bounds sk sampleX sampleY hon

theorem ensure_model_some (sk : SklearnFit) (st : ModelState) (m : Classifier)
    (h : st.model = some m) : ensure_model sk st = st := by
  unfold ensure_model
  rw [h]
  rfl

theorem ensure_model_none (sk : SklearnFit) (st : ModelState)
    (h : st.model = none) : ensure_model sk st = (load_model sk st).2 := by
  unfold ensure_model
  rw [h]
  rfl

theorem ensure_model_inv (sk : SklearnFit) (st : ModelState) (h : st.inv) :
    (ensure_model sk st).inv := by
  unfold ensure_model
  by_cases hm : st.model.isNone
  · rw [if_pos hm]
    exact load_model_inv sk st h
  · rw [if_neg hm]
    exact h

theorem predict_some (sk : SklearnFit) (st : ModelState) (f : List ℚ)
    (m : Classifier) (hm : (ensure_model sk st).model = some m)
    (hf : f.length = 13) :
    predict sk st f = Except.ok
      ({ prediction := m.predictOne f
         probability := (m.probaOne f).2
         accuracy := if (ensure_model sk st).accuracy > 0
                     then (ensure_model sk st).accuracy else 85 },
       ensure_model sk st) := by
  unfold predict
  rw [hm]
  simp [hf]

/-- C2: a successful `predict` on a well-formed 13-entry feature vector
returns a label in {0,1}, a probability in [0,1], and an accuracy in
[0,100]; the accuracy is the active model's recorded holdout accuracy
whenever one was recorded (the `accuracy` attribute differs from its
initial 0.0) and the 85.0 sentinel when none was. -/
theorem c2_predict_contract (sk : SklearnFit) (st : ModelState) (f : List ℚ)
    (r : PredResult) (st2 : ModelState)
    (hinv : st.inv) (hf : f.length = 13)
    (hp : predict sk st f = Except.ok (r, st2)) :
    (r.prediction = 0 ∨ r.prediction = 1) ∧
    (0 ≤ r.probability ∧ r.probability ≤ 1) ∧
    (0 ≤ r.accuracy ∧ r.accuracy ≤ 100) ∧
    (st2.accuracy ≠ 0 → r.accuracy = st2.accuracy) ∧
    (st2.accuracy = 0 → r.accuracy = 85) := by
  have hinv1 : (ensure_model sk st).inv := ensure_model_inv sk st hinv
  cases hm : (ensure_model sk st).model with
  | none =>
      unfold predict at hp
      rw [hm] at hp
      exact absurd hp (by intro hx; cases hx)
  | some m =>
      rw [predict_some sk st f m hm hf] at hp
      injection hp with h1
      injection h1 with hA hB
      subst hA
      subst hB
      refine ⟨m.pred_binary f, m.proba_range f, ?_, ?_, ?_⟩
      · show (0 ≤ if (ensure_model sk st).accuracy > 0
              then (ensure_model sk st).accuracy else 85) ∧
             (if (ensure_model sk st).accuracy > 0
              then (ensure_model sk st).accuracy else 85) ≤ 100
        by_cases hacc : (ensure_model sk st).accuracy > 0
        · rw [if_pos hacc]
          exact hinv1
        · rw [if_neg hacc]
          norm_num
      · intro hne
        show (if (ensure_model sk st).accuracy > 0
              then (ensure_model sk st).accuracy else 85) =
             (ensure_model sk st).accuracy
        rw [if_pos (lt_of_le_of_ne hinv1.1 (Ne.symm hne))]
      · intro heq
        show (if (ensure_model sk st).accuracy > 0
              then (ensure_model sk st).accuracy else 85) = 85
        rw [heq]
        norm_num

/-- C2 witness: the contract evaluated with a loaded model and recorded
accuracy 50 on the reference input vector. -/
theorem c2_predict_contract_witness :
    warmState.inv ∧ f13.length = 13 ∧
    ∃ r st2, predict sk0 warmState f13 = Except.ok (r, st2) ∧
      ((r.prediction = 0 ∨ r.prediction = 1) ∧
       (0 ≤ r.probability ∧ r.probability ≤ 1) ∧
       (0 ≤ r.accuracy ∧ r.accuracy ≤ 100) ∧
       (st2.accuracy ≠ 0 → r.accuracy = st2.accuracy) ∧
       (st2.accuracy = 0 → r.accuracy = 85)) := by
  have hinv : warmState.inv := by
    constructor <;> norm_num [warmState, ModelState.inv]
  exact ⟨hinv, rfl, _, _, rfl,
    c2_predict_contract sk0 warmState f13 _ _ hinv rfl rfl⟩

/-- C7: against an already-loaded model, `predict` leaves the state (the
loaded model and the recorded accuracy) unchanged, and a second call with
the same features returns the identical result. -/
theorem c7_predict_idempotent (sk : SklearnFit) (st : ModelState)
    (m : Classifier) (f : List ℚ) (r : PredResult) (st2 : ModelState)
    (hm : st.model = some m)
    (hp : predict sk st f = Except.ok (r, st2)) :
    st2 = st ∧ predict sk st2 f = Except.ok (r, st2) := by
  have he : ensure_model sk st = st := ensure_model_some sk st m hm
  have hm2 : (ensure_model sk st).model = some m := by rw [he]; exact hm
  by_cases hf : f.length = 13
  · rw [predict_some sk st f m hm2 hf] at hp
    injection hp with h1
    injection h1 with hA hB
    rw [he] at hB
    refine ⟨hB.symm, ?_⟩
    rw [← hB, predict_some sk st f m hm2 hf, hA, he]
  · unfold predict at hp
    rw [he, hm] at hp
    simp [hf] at hp

/-- C7 witness: two identical calls against the loaded-model state. -/
theorem c7_predict_idempotent_witness :
    warmState.model = some constClf ∧
    ∃ r st2, predict sk0 warmState f13 = Except.ok (r, st2) ∧
      (st2 = warmState ∧ predict sk0 st2 f13 = Except.ok (r, st2)) :=
  ⟨rfl, _, _, rfl, c7_predict_idempotent sk0 warmState constClf f13 _ _ rfl rfl⟩

/-- C3: cold start self-heals: with no model loaded and no artifact on
disk, `predict` generates the synthetic data, trains on it, persists the
trained classifier to the fixed path, and returns a prediction result —
the absent artifact is never surfaced to the caller as a failure. -/
theorem c3_cold_start_self_heals (sk : SklearnFit) (st : ModelState)
    (f : List ℚ)
    (h1 : st.model = none) (h2 : st.fs = FileState.absent)
    (hf : f.length = 13) :
    ∃ m a, train_on sk sampleX sampleY = Except.ok (m, a) ∧
      predict sk st f = Except.ok
        ({ prediction := m.predictOne f
           probability := (m.probaOne f).2
           accuracy := if a > 0 then a else 85 },
         { model := some m, accuracy := a, fs := FileState.stored m }) := by
  obtain ⟨m, a, hon, htm⟩ := train_model_spec sk st
  have hload : load_model sk st =
      (true, { model := some m, accuracy := a, fs := FileState.stored m }) := by
    unfold load_model
    rw [h2]
    simp only [htm]
  have hen : ensure_model sk st =
      { model := some m, accuracy := a, fs := FileState.stored m } := by
    rw [ensure_model_none sk st h1, hload]
  refine ⟨m, a, hon, ?_⟩
  have hps := predict_some sk st f m (by rw [hen]) hf
  rw [hen] at hps
  exact hps

/-- C3 witness: the cold-start state and the reference input vector. -/
theorem c3_cold_start_self_heals_witness :
    coldState.model = none ∧ coldState.fs = FileState.absent ∧
    f13.length = 13 ∧
    ∃ m a, train_on sk0 sampleX sampleY = Except.ok (m, a) ∧
      predict sk0 coldState f13 = Except.ok
        ({ prediction := m.predictOne f13
           probability := (m.probaOne f13).2
           accuracy := if a > 0 then a else 85 },
         { model := some m, accuracy := a, fs := FileState.stored m }) :=
  ⟨rfl, rfl, rfl, c3_cold_start_self_heals sk0 coldState f13 rfl rfl rfl⟩

/-- C10: the pickled artifact holds only the classifier, so a fresh
process that loads an existing artifact keeps its initial
`accuracy = 0.0`, and every subsequent `predict` reports the 85.0
sentinel, whatever holdout accuracy was measured when the stored model
was originally trained. -/
theorem c10_reload_reports_sentinel (sk : SklearnFit) (c : Classifier)
    (st : ModelState) (f : List ℚ)
    (h1 : st.model = none) (h2 : st.fs = FileState.stored c)
    (h3 : st.accuracy = 0) (hf : f.length = 13) :
    predict sk st f = Except.ok
      ({ prediction := c.predictOne f
         probability := (c.probaOne f).2
         accuracy := 85 },
       { st with model := some c }) ∧
    ({ st with model := some c } : ModelState).accuracy = 0 := by
  have hload : load_model sk st = (true, { st with model := some c }) := by
    unfold load_model
    rw [h2]
  have hen : ensure_model sk st = { st with model := some c } := by
    rw [ensure_model_none sk st h1, hload]
  have hps := predict_some sk st f c (by rw [hen]) hf
  rw [hen] at hps
  refine ⟨?_, h3⟩
  rw [hps]
  have hacc : ({ st with model := some c } : ModelState).accuracy = (0 : ℚ) := h3
  rw [hacc]
  norm_num

/-- C10 witness: reloading a stored classifier into a fresh instance. -/
theorem c10_reload_reports_sentinel_witness :
    ({ model := none, accuracy := 0,
       fs := FileState.stored constClf } : ModelState).model = none ∧
    ({ model := none, accuracy := 0,
       fs := FileState.stored constClf } : ModelState).accuracy = 0 ∧
    f13.length = 13 ∧
    (predict sk0 { model := none, accuracy := 0, fs := FileState.stored constClf } f13 =
      Except.ok
        ({ prediction := constClf.predictOne f13
           probability := (constClf.probaOne f13).2
           accuracy := 85 },
         { model := some constClf, accuracy := 0, fs := FileState.stored constClf }) ∧
     ({ model := some constClf, accuracy := 0,
        fs := FileState.stored constClf } : ModelState).accuracy = 0) :=
  ⟨rfl, rfl, rfl,
    c10_reload_reports_sentinel sk0 constClf
      { model := none, accuracy := 0, fs := FileState.stored constClf } f13
      rfl rfl rfl rfl⟩

/-- C4 evidence (code bug): facing a present-but-undecodable artifact, the
code raises no persistence error at all: `load_model` swallows the decode
exception and returns `False` (leaving the corrupt file in place, not
retraining), and the following inference then fails with the unrelated
`AttributeError` of calling `.predict` on `self.model = None`; no
`ModelPersistenceError` class exists anywhere in `ml_model.py` (see
`PyError`). -/
theorem c4_corrupt_artifact_masked (sk : SklearnFit) (f : List ℚ) :
    load_model sk corruptState = (false, corruptState) ∧
    predict sk corruptState f = Except.error PyError.attributeError :=
  ⟨rfl, rfl⟩

/-- Formal statement of claim C5 over the dataset-processing body of
`train_model`: training fails whenever the dataset has fewer than 2
samples or all its samples carry the same class label. -/
def c5_claim : Prop :=
  ∀ (sk : SklearnFit) (X : List Sample) (y : List Nat),
    ((X.zip y).length < 2 ∨ ∃ l, ∀ p ∈ X.zip y, (p : Sample × Nat).2 = l) →
    ∃ e, train_on sk X y = Except.error e

/-- C5 counterexample: a two-sample dataset whose samples both carry class
0 trains successfully — the split succeeds and scikit-learn fits
single-class data without raising — so no error of any kind (a fortiori
no TrainingError, a class the code never defines) is produced. -/
theorem c5_counterexample : ¬ c5_claim := by
  intro hcl
  obtain ⟨e, he⟩ := hcl sk0 [dummySample, dummySample] [0, 0]
    (Or.inr ⟨0, by decide⟩)
  obtain ⟨p, hp⟩ :
      ∃ p, train_on sk0 [dummySample, dummySample] [0, 0] = Except.ok p :=
    ⟨_, rfl⟩
  rw [hp] at he
  exact Except.noConfusion he

/-- C5 amended: the code defines no TrainingError; training on a dataset
of fewer than 2 samples fails with the generic ValueError that the 80/20
split raises (one side would be empty), re-raised by `train_model`, while
a single-class dataset of 2 or more samples trains without error. -/
theorem c5_small_dataset_fails (sk : SklearnFit) (X : List Sample)
    (y : List Nat) (h : (X.zip y).length < 2) :
    train_on sk X y = Except.error PyError.valueError := by
  unfold train_on
  rw [train_test_split_err _ h]

/-- C5 amended-claim witness: the empty dataset. -/
theorem c5_small_dataset_fails_witness :
    (([] : List Sample).zip ([] : List Nat)).length < 2 ∧
    train_on sk0 [] [] = Except.error PyError.valueError :=
  ⟨by decide, c5_small_dataset_fails sk0 [] [] (by decide)⟩

/-- C6: every successful training run returns an accuracy in [0,100],
equal to the number of correctly classified holdout samples divided by
the holdout size times 100; the holdout is the ceil-20% part of the
split, which is a pure function of the dataset (the seed is fixed inside
`shuffle42`), hence deterministic. -/
theorem c6_accuracy_formula (sk : SklearnFit) (X : List Sample)
    (y : List Nat) (m : Classifier) (a : ℚ)
    (h : train_on sk X y = Except.ok (m, a)) :
    (0 ≤ a ∧ a ≤ 100) ∧
    ∃ tr te, train_test_split (X.zip y) = Except.ok (tr, te) ∧
      m = sk.fit tr ∧
      a = (correctCount m te : ℚ) / (te.length : ℚ) * 100 ∧
      te.length = ((X.zip y).length + 4) / 5 ∧ 0 < te.length := by
  refine ⟨train_on_acc_bounds sk X y h, ?_⟩
  unfold train_on at h
  cases hsp : train_test_split (X.zip y) with
  | error e =>
      rw [hsp] at h
      exact absurd h (by intro hx; cases hx)
  | ok p =>
      obtain ⟨tr, te⟩ := p
      rw [hsp] at h
      injection h with h1
      injection h1 with hA hB
      obtain ⟨hlen, hpos⟩ := train_test_split_te_len hsp
      exact ⟨tr, te, rfl, hA.symm, by rw [← hA, ← hB], hlen, hpos⟩

/-- C6 witness: training the concrete two-sample dataset. -/
theorem c6_accuracy_formula_witness :
    ∃ m a, train_on sk0 [dummySample, dummySample] [0, 0] = Except.ok (m, a) ∧
      ((0 ≤ a ∧ a ≤ 100) ∧
       ∃ tr te,
         train_test_split (([dummySample, dummySample]).zip [0, 0]) =
           Except.ok (tr, te) ∧
         m = sk0.fit tr ∧
         a = (correctCount m te : ℚ) / (te.length : ℚ) * 100 ∧
         te.length = ((([dummySample, dummySample]).zip [0, 0]).length + 4) / 5 ∧
         0 < te.length) :=
  ⟨_, _, rfl, c6_accuracy_formula sk0 [dummySample, dummySample] [0, 0] _ _ rfl⟩

/-- Position of one thread executing a `predict` call: `checking` is about
to evaluate `if self.model is None`; `fschecking` is inside `load_model`,
about to evaluate `os.path.exists(self.model_path)`; `training` is about
to run the train-and-persist cycle of `train_model`; `serving` is about
to run inference; `finished` has returned. Each of these is a separate
statement of `ml_model.py`, and nothing in the file takes a lock. -/
inductive TPC
  | checking
  | fschecking
  | training
  | serving
  | finished
deriving DecidableEq, Repr

/-- Two concurrent `predict` calls sharing the one global
`HeartDiseaseModel` instance: the shared attributes and artifact, the
number of train-and-persist cycles executed so far, and each thread's
position. -/
structure SysState where
  shared : ModelState
  trains : Nat
  pc1 : TPC
  pc2 : TPC

/-- Free interleaving of the statements of two concurrent `predict`
calls. A thread at `checking` proceeds to `load_model` when
`self.model` is `None` and straight to inference otherwise; at
`fschecking` it proceeds to training when the artifact is absent and
loads it when stored; a training step installs the trained state and
bumps the cycle count. -/
inductive SysStep (sk : SklearnFit) : SysState → SysState → Prop
  | check1_none (s : SysState) : s.pc1 = TPC.checking → s.shared.model = none →
      SysStep sk s { s with pc1 := TPC.fschecking }
  | check1_some (s : SysState) (m : Classifier) : s.pc1 = TPC.checking →
      s.shared.model = some m → SysStep sk s { s with pc1 := TPC.serving }
  | fs1_absent (s : SysState) : s.pc1 = TPC.fschecking →
      s.shared.fs = FileState.absent → SysStep sk s { s with pc1 := TPC.training }
  | fs1_stored (s : SysState) (m : Classifier) : s.pc1 = TPC.fschecking →
      s.shared.fs = FileState.stored m →
      SysStep sk s
        { s with shared := { s.shared with model := some m }, pc1 := TPC.serving }
  | train1 (s : SysState) (st2 : ModelState) : s.pc1 = TPC.training →
      train_model sk s.shared = Except.ok st2 →
      SysStep sk s
        { s with shared := st2, trains := s.trains + 1, pc1 := TPC.serving }
  | serve1 (s : SysState) : s.pc1 = TPC.serving →
      SysStep sk s { s with pc1 := TPC.finished }
  | check2_none (s : SysState) : s.pc2 = TPC.checking → s.shared.model = none →
      SysStep sk s { s with pc2 := TPC.fschecking }
  | check2_some (s : SysState) (m : Classifier) : s.pc2 = TPC.checking →
      s.shared.model = some m → SysStep sk s { s with pc2 := TPC.serving }
  | fs2_absent (s : SysState) : s.pc2 = TPC.fschecking →
      s.shared.fs = FileState.absent → SysStep sk s { s with pc2 := TPC.training }
  | fs2_stored (s : SysState) (m : Classifier) : s.pc2 = TPC.fschecking →
      s.shared.fs = FileState.stored m →
      SysStep sk s
        { s with shared := { s.shared with model := some m }, pc2 := TPC.serving }
  | train2 (s : SysState) (st2 : ModelState) : s.pc2 = TPC.training →
      train_model sk s.shared = Except.ok st2 →
      SysStep sk s
        { s with shared := st2, trains := s.trains + 1, pc2 := TPC.serving }
  | serve2 (s : SysState) : s.pc2 = TPC.serving →
      SysStep sk s { s with pc2 := TPC.finished }

/-- Both callers start before any model exists. -/
def coldSys : SysState :=
  { shared := coldState, trains := 0, pc1 := TPC.checking, pc2 := TPC.checking }

/-- C9 evidence (code bug): with no mutex anywhere in `ml_model.py`, the
cold-start race is real — from the two-caller cold state there is an
interleaving (both threads see `self.model is None`, then both see no
artifact on disk, then each trains and persists) in which two
train-and-persist cycles execute and both callers run to completion. -/
theorem c9_duplicate_training_reachable (sk : SklearnFit) :
    ∃ s : SysState, Relation.ReflTransGen (SysStep sk) coldSys s ∧
      s.trains = 2 ∧ s.pc1 = TPC.finished ∧ s.pc2 = TPC.finished := by
  obtain ⟨m, a, hon, htm⟩ := train_model_spec sk coldState
  have htm2 : train_model sk
      { model := some m, accuracy := a, fs := FileState.stored m } =
      Except.ok { model := some m, accuracy := a, fs := FileState.stored m } := htm
  refine ⟨{ shared := { model := some m, accuracy := a, fs := FileState.stored m },
            trains := 2, pc1 := TPC.finished, pc2 := TPC.finished },
          ?_, rfl, rfl, rfl⟩
  refine Relation.ReflTransGen.head (SysStep.check1_none _ rfl rfl) ?_
  refine Relation.ReflTransGen.head (SysStep.check2_none _ rfl rfl) ?_
  refine Relation.ReflTransGen.head (SysStep.fs1_absent _ rfl rfl) ?_
  refine Relation.ReflTransGen.head (SysStep.fs2_absent _ rfl rfl) ?_
  refine Relation.ReflTransGen.head (SysStep.train1 _ _ rfl htm) ?_
  refine Relation.ReflTransGen.head (SysStep.train2 _ _ rfl htm2) ?_
  refine Relation.ReflTransGen.head (SysStep.serve1 _ rfl) ?_
  exact Relation.ReflTransGen.single (SysStep.serve2 _ rfl)

end HeartModel
